import Mathlib

/-!
Shallow embedding of the kanban-board core of the agile-sprint-creator
repository: the task data model, the column classifier, the three
drag-and-drop board variants found in the source, the delete handler and
the sprint-task loader, together with theorems settling the frozen claims
about them.

Statuses are modelled as strings, matching the runtime representation of
the TypeScript code; the union type declared in src/types/task.ts is
modelled separately as an explicit value list so that the declared type
and the values the board actually produces can be compared.
-/

namespace AgileSprint

/-- The Task record of src/types/task.ts. The declared status union is
tracked separately (see declaredStatusValues); at runtime the field is a
string. -/
structure Task where
  id : String
  title : String
  description : String
  priority : String
  points : Nat
  status : String
  assignees : List String
  userId : Option String
  projectId : Option String
  sprintId : Option String
deriving DecidableEq, Repr

/-- The values admitted by the status union declared in
src/types/task.ts line 8: "todo" | "in-progress" | "done". -/
def declaredStatusValues : List String := ["todo", "in-progress", "done"]

/-- The values of the status cast used by the edit dialog
(handleStatusChange) and the supabase row mappers: four values. -/
def dialogStatusValues : List String := ["todo", "in-progress", "in-review", "done"]

/-- Lane-to-status map of the optimistic board variant (newStatusMap):
resolves the four fixed column ids, anything else is undefined. -/
def newStatusMap (columnId : String) : Option String :=
  if columnId = "column-todo" then some "todo"
  else if columnId = "column-in-progress" then some "in-progress"
  else if columnId = "column-in-review" then some "in-review"
  else if columnId = "column-done" then some "done"
  else none

/-- Column classifier used by every board variant:
tasks.filter(t => t.status === status). -/
def classify (tasks : List Task) (status : String) : List Task :=
  tasks.filter (fun t => t.status = status)

/-- Ephemeral drag-session state of the optimistic board variant:
activeTask, activeId and currentOverId. -/
structure DragSession where
  activeTask : Option Task
  activeId : Option String
  currentOverId : Option String
deriving DecidableEq, Repr

/-- The session after handleDragEnd has run: every field reset to null at
the top of the handler. -/
def clearedSession : DragSession := ⟨none, none, none⟩

/-- A toast fired through the notification collaborator. -/
inductive Notice where
  | success (title description : String)
  | error (title description : String)
deriving DecidableEq, Repr

/-- An in-flight updateTask persistence request together with the
behaviour of the completion handlers the board installed for it: the
payload sent to the collaborator, the acting user id attached to it, and
the store transformation plus toast run on resolution and on rejection. -/
structure PendingUpdate where
  payload : Task
  actingUser : String
  onSuccess : List Task → List Task
  successNote : Notice
  onFailure : List Task → List Task
  failureNote : Notice

/-- A drag-end event as seen by handleDragEnd: active.id and the optional
over.id. -/
structure DragEndEvent where
  activeId : String
  overId : Option String
deriving DecidableEq, Repr

/-- Result of the synchronous phase of a drag-end handler: the store as
left when the handler suspends or returns, the cleared drag session, and
the persistence request issued, if any. -/
structure DragEndResult where
  tasks : List Task
  session : DragSession
  request : Option PendingUpdate

/-- Synchronous phase of handleDragEnd of the optimistic board variant:
clears the session, returns early when there is no drop target, no
matching task, no signed-in user, an unresolvable lane id, or an
unchanged status; otherwise applies the new status to the store
immediately and issues the updateTask request, whose success handler
leaves the store alone (success toast) and whose failure handler rewrites
the dragged task back to its pre-drag snapshot (error toast). -/
def handleDragEndA (user : Option String) (tasks : List Task)
    (ev : DragEndEvent) : DragEndResult :=
  match ev.overId with
  | none => ⟨tasks, clearedSession, none⟩
  | some overId =>
    match tasks.find? (fun t => t.id = ev.activeId), user with
    | some task, some uid =>
      match newStatusMap overId with
      | none => ⟨tasks, clearedSession, none⟩
      | some newStatus =>
        if newStatus = task.status then ⟨tasks, clearedSession, none⟩
        else
          ⟨tasks.map (fun t =>
              if t.id = ev.activeId then { t with status := newStatus } else t),
           clearedSession,
           some { payload := { task with status := newStatus },
                  actingUser := uid,
                  onSuccess := fun cur => cur,
                  successNote := .success "Task updated"
                    ("Task moved to " ++ newStatus.replace "-" " "),
                  onFailure := fun cur => cur.map (fun t =>
                    if t.id = ev.activeId then task else t),
                  failureNote := .error "Error" "Failed to update task status" }⟩
    | _, _ => ⟨tasks, clearedSession, none⟩

/-- Lane resolution of the second (non-optimistic) board variant: an
if-else chain that starts from the current status, so an unresolvable
over id leaves the status unchanged. -/
def resolveStatusB (overId : String) (current : String) : String :=
  if overId = "column-todo" then "todo"
  else if overId = "column-in-progress" then "in-progress"
  else if overId = "column-in-review" then "in-review"
  else if overId = "column-done" then "done"
  else current

/-- Synchronous phase of handleDragEnd of the second (non-optimistic)
board variant: it does NOT touch the store before the persistence call;
its success handler rewrites the store from the task list captured when
the gesture ended (a stale closure), its failure handler only toasts. -/
def handleDragEndB (user : Option String) (tasks : List Task)
    (ev : DragEndEvent) : List Task × Option PendingUpdate :=
  match ev.overId with
  | none => (tasks, none)
  | some overId =>
    match tasks.find? (fun t => t.id = ev.activeId), user with
    | some task, some uid =>
      let newStatus := resolveStatusB overId task.status
      if newStatus = task.status then (tasks, none)
      else
        (tasks,
         some { payload := { task with status := newStatus },
                actingUser := uid,
                onSuccess := fun _ => tasks.map (fun t =>
                  if t.id = ev.activeId then { t with status := newStatus } else t),
                successNote := .success "Task updated"
                  ("Task moved to " ++ newStatus.replace "-" " "),
                onFailure := fun cur => cur,
                failureNote := .error "Error" "Failed to update task status" })
    | _, _ => (tasks, none)

/-- Resolution of a pending updateTask request: runs the success handler
on the current store when the collaborator resolves, the failure handler
when it rejects, and returns the store together with the toast fired. -/
def applyCompletion (p : PendingUpdate) (ok : Bool) (tasks : List Task) :
    List Task × Notice :=
  if ok then (p.onSuccess tasks, p.successNote)
  else (p.onFailure tasks, p.failureNote)

/-- handleDeleteTask of the board: awaits the Task collaborator delete
call; on resolution filters the task out of the store and toasts success;
on rejection leaves the store untouched and toasts an error. -/
def handleDeleteTask (tasks : List Task) (taskId : String) (ok : Bool) :
    List Task × Notice :=
  if ok then
    (tasks.filter (fun t => ¬ t.id = taskId),
     .success "Task deleted" "Task has been deleted successfully")
  else (tasks, .error "Error" "Failed to delete task")

/-- A row of the tasks table as returned by the backend client; nullable
columns are Options. -/
structure DbTask where
  id : String
  title : String
  description : Option String
  priority : Option String
  estimate : Option Nat
  status : String
  assignee_ids : Option (List String)
  user_id : String
  project_id : Option String
  sprint_id : Option String
deriving DecidableEq, Repr

/-- JavaScript x || d on a nullable string: null, undefined and the empty
string all fall through to the default. -/
def jsOrString (x : Option String) (d : String) : String :=
  match x with
  | none => d
  | some s => if s = "" then d else s

/-- JavaScript x || d on a nullable number: null, undefined and 0 fall
through to the default. -/
def jsOrNat (x : Option Nat) (d : Nat) : Nat :=
  match x with
  | none => d
  | some n => if n = 0 then d else n

/-- The row-to-Task mapping of fetchSprintTasks in
src/src/lib/supabase/tasks.ts. -/
def mapDbTask (t : DbTask) : Task :=
  { id := t.id
    title := t.title
    description := jsOrString t.description ""
    priority := jsOrString t.priority "medium"
    points := jsOrNat t.estimate 0
    status := t.status
    assignees := t.assignee_ids.getD []
    userId := some t.user_id
    projectId := t.project_id
    sprintId := t.sprint_id }

/-- Response of the backend query in fetchSprintTasks: either rows or an
error carrying a Postgres error code. -/
inductive DbResult (α : Type) where
  | rows (data : α)
  | failed (code : String)
deriving DecidableEq, Repr

/-- fetchSprintTasks of src/src/lib/supabase/tasks.ts: a 42P01 error
(missing table) is swallowed into an empty list, any other error is
rethrown, and rows are mapped into Tasks. -/
def fetchSprintTasks (resp : DbResult (List DbTask)) :
    Except String (List Task) :=
  match resp with
  | .failed code => if code = "42P01" then .ok [] else .error code
  | .rows data => .ok (data.map mapDbTask)

/-- Outcome of the boards fetchTasks wrapper: the store after the load,
the loading flag while the call is in flight and after it settles, and
the toast fired, if any. -/
structure LoadResult where
  tasks : List Task
  loadingDuring : Bool
  loadingAfter : Bool
  notice : Option Notice
deriving DecidableEq, Repr

/-- fetchTasks of the board: sets loading true, awaits fetchSprintTasks,
replaces the store on success, toasts an error and keeps the prior store
on failure, and resets loading in the finally block either way. -/
def fetchTasksBoard (prevStore : List Task) (resp : DbResult (List DbTask)) :
    LoadResult :=
  match fetchSprintTasks resp with
  | .ok ts => ⟨ts, true, false, none⟩
  | .error _ =>
      ⟨prevStore, true, false, some (.error "Error" "Failed to load sprint tasks")⟩

/-- Pointer-sensor activation distance configured by the optimistic board
variant (activationConstraint distance 8). -/
def sensorActivationDistanceA : Option Nat := some 8

/-- Pointer-sensor activation distance configured by the second board
variant (activationConstraint distance 5). -/
def sensorActivationDistanceB : Option Nat := some 5

/-- Pointer-sensor configuration of the third (DOM-containment) board
variant: its DndContext is mounted without a sensors prop, so no
activation-distance constraint exists. -/
def sensorActivationDistanceC : Option Nat := none

/-- When the optimistic lane map resolves a column id, the if-else chain
of the second variant resolves the same id to the same status, whatever
the current status. -/
theorem resolveStatusB_of_map (oid s c : String)
    (h : newStatusMap oid = some s) : resolveStatusB oid c = s := by
  unfold newStatusMap at h
  unfold resolveStatusB
  split_ifs at h ⊢ <;> simp_all

/-- C3: the column classifier is a pure order-preserving filter: the lane
classified by the own status of a task contains the task exactly once (when the
task occurs once in the store), no lane classified by a different status
contains it, each lane is a sublist of the input (relative order
preserved), and a lane with no matching task is the empty list. -/
theorem C3_classify_partition (tasks : List Task) (t : Task)
    (h : tasks.count t = 1) :
    (classify tasks t.status).count t = 1 ∧
    (∀ s : String, s ≠ t.status → t ∉ classify tasks s) ∧
    (∀ s : String, (classify tasks s).Sublist tasks) ∧
    (∀ s : String, (∀ u ∈ tasks, u.status ≠ s) → classify tasks s = []) := by
  refine ⟨?_, ?_, ?_, ?_⟩
  · rw [classify, List.count_filter (by simp)]
    exact h
  · intro s hs hmem
    rw [classify, List.mem_filter] at hmem
    exact hs ((by simpa using hmem.2 : t.status = s).symm)
  · intro s
    exact List.filter_sublist tasks
  · intro s hnone
    rw [classify, List.filter_eq_nil_iff]
    intro u hu
    simpa using hnone u hu

/-- Witness for C3 at a concrete one-task store. -/
theorem C3_classify_partition_witness :
    let t : Task := ⟨"t1", "a", "", "medium", 1, "todo", [], none, none, none⟩
    [t].count t = 1 ∧
    ((classify [t] t.status).count t = 1 ∧
    (∀ s : String, s ≠ t.status → t ∉ classify [t] s) ∧
    (∀ s : String, (classify [t] s).Sublist [t]) ∧
    (∀ s : String, (∀ u ∈ [t], u.status ≠ s) → classify [t] s = [])) := by
  exact ⟨by decide, C3_classify_partition _ _ (by decide)⟩

/-- C4: a drag-end whose resolved target status equals the dragged task
current status is a no-op in both sensor-driven board variants: the store
is returned unchanged, the session is cleared, and no persistence request
is issued. -/
theorem C4_same_lane_noop (user : Option String) (tasks : List Task)
    (ev : DragEndEvent) (task : Task) (oid : String)
    (hfind : tasks.find? (fun t => t.id = ev.activeId) = some task)
    (hover : ev.overId = some oid)
    (hres : newStatusMap oid = some task.status) :
    handleDragEndA user tasks ev = ⟨tasks, clearedSession, none⟩ ∧
    handleDragEndB user tasks ev = (tasks, none) := by
  have hB := resolveStatusB_of_map oid task.status task.status hres
  constructor
  · cases user with
    | none => simp [handleDragEndA, hover, hfind]
    | some uid => simp [handleDragEndA, hover, hfind, hres]
  · cases user with
    | none => simp [handleDragEndB, hover, hfind]
    | some uid => simp [handleDragEndB, hover, hfind, hB]

/-- Witness for C4: dropping a todo task back onto the todo column. -/
theorem C4_same_lane_noop_witness :
    let t1 : Task := ⟨"t1", "a", "", "medium", 1, "todo", [], none, none, none⟩
    let ev : DragEndEvent := ⟨"t1", some "column-todo"⟩
    handleDragEndA (some "u") [t1] ev = ⟨[t1], clearedSession, none⟩ ∧
    handleDragEndB (some "u") [t1] ev = ([t1], none) :=
  C4_same_lane_noop (some "u") _ _ _ "column-todo" rfl rfl rfl

/-- C5: a drag-end with no drop target, or whose drop target id does not
resolve through the fixed lane-to-status map, leaves the store unchanged,
clears the drag session, and issues no persistence request. -/
theorem C5_unresolved_target_noop (user : Option String) (tasks : List Task)
    (ev : DragEndEvent)
    (h : ev.overId = none ∨
      ∃ oid, ev.overId = some oid ∧ newStatusMap oid = none) :
    handleDragEndA user tasks ev = ⟨tasks, clearedSession, none⟩ := by
  rcases h with h | ⟨oid, hov, hres⟩
  · simp [handleDragEndA, h]
  · rcases hfind : tasks.find? (fun t => t.id = ev.activeId) with _ | task
    · cases user <;> simp [handleDragEndA, hov, hfind]
    · cases user <;> simp [handleDragEndA, hov, hfind, hres]

/-- Witness for C5: a drop outside every lane and a drop on an id that is
not a lane. -/
theorem C5_unresolved_target_noop_witness :
    let t1 : Task := ⟨"t1", "a", "", "medium", 1, "todo", [], none, none, none⟩
    handleDragEndA (some "u") [t1] ⟨"t1", none⟩ =
      ⟨[t1], clearedSession, none⟩ ∧
    handleDragEndA (some "u") [t1] ⟨"t1", some "t2"⟩ =
      ⟨[t1], clearedSession, none⟩ := by
  constructor
  · exact C5_unresolved_target_noop (some "u") _ _ (Or.inl rfl)
  · exact C5_unresolved_target_noop (some "u") _ _ (Or.inr ⟨"t2", rfl, rfl⟩)

/-- C6: handleDeleteTask removes the task from the store exactly when the
collaborator delete call resolves; a toast fires in both cases, and on
rejection the store is returned completely unchanged. -/
theorem C6_delete_success_iff (tasks : List Task) (T : Task) (ok : Bool)
    (hmem : T ∈ tasks) :
    ((T ∉ (handleDeleteTask tasks T.id ok).1) ↔ ok = true) ∧
    ((handleDeleteTask tasks T.id ok).2 =
      if ok then Notice.success "Task deleted" "Task has been deleted successfully"
      else Notice.error "Error" "Failed to delete task") ∧
    (ok = false → (handleDeleteTask tasks T.id ok).1 = tasks) := by
  cases ok with
  | false =>
    refine ⟨?_, by simp [handleDeleteTask], fun _ => by simp [handleDeleteTask]⟩
    simp [handleDeleteTask]
    exact hmem
  | true =>
    refine ⟨?_, by simp [handleDeleteTask], by simp⟩
    simp [handleDeleteTask, List.mem_filter]

/-- Witness for C6: deleting a one-element store, resolving and
rejecting. -/
theorem C6_delete_success_iff_witness :
    let T : Task := ⟨"t1", "a", "", "medium", 1, "todo", [], none, none, none⟩
    (((T ∉ (handleDeleteTask [T] T.id true).1) ↔ true = true) ∧
      ((handleDeleteTask [T] T.id true).2 =
        if true then Notice.success "Task deleted" "Task has been deleted successfully"
        else Notice.error "Error" "Failed to delete task") ∧
      (true = false → (handleDeleteTask [T] T.id true).1 = [T])) ∧
    (((T ∉ (handleDeleteTask [T] T.id false).1) ↔ false = true) ∧
      ((handleDeleteTask [T] T.id false).2 =
        if false then Notice.success "Task deleted" "Task has been deleted successfully"
        else Notice.error "Error" "Failed to delete task") ∧
      (false = false → (handleDeleteTask [T] T.id false).1 = [T])) := by
  exact ⟨C6_delete_success_iff [_] _ true (by simp),
         C6_delete_success_iff [_] _ false (by simp)⟩

/-- C7: when the load reports NotFound (missing table error 42P01, or a
query that matches no rows) the board ends with an empty store and no
toast, with the loading flag raised during the call and lowered after
it. -/
theorem C7_notfound_empty_store (prevStore : List Task)
    (resp : DbResult (List DbTask))
    (h : resp = DbResult.failed "42P01" ∨ resp = DbResult.rows []) :
    (fetchTasksBoard prevStore resp).tasks = [] ∧
    (fetchTasksBoard prevStore resp).notice = none ∧
    (fetchTasksBoard prevStore resp).loadingDuring = true ∧
    (fetchTasksBoard prevStore resp).loadingAfter = false := by
  rcases h with h | h <;> subst h <;>
    simp [fetchTasksBoard, fetchSprintTasks]

/-- Witness for C7 on the missing-table error. -/
theorem C7_notfound_empty_store_witness :
    (fetchTasksBoard [] (DbResult.failed "42P01")).tasks = [] ∧
    (fetchTasksBoard [] (DbResult.failed "42P01")).notice = none ∧
    (fetchTasksBoard [] (DbResult.failed "42P01")).loadingDuring = true ∧
    (fetchTasksBoard [] (DbResult.failed "42P01")).loadingAfter = false :=
  C7_notfound_empty_store [] _ (Or.inl rfl)

/-- C10: a committed drag-end rewrites the store elementwise through a
function that leaves every task with a different id untouched and, on the
dragged id, changes only the status field, keeping id, title,
description, priority, points, assignees, userId, projectId and sprintId;
the non-optimistic variant applies the same elementwise rewrite in its
success handler. -/
theorem C10_drag_frame_condition (uid : String) (tasks : List Task)
    (ev : DragEndEvent) (task : Task) (oid newStatus : String)
    (hfind : tasks.find? (fun t => t.id = ev.activeId) = some task)
    (hover : ev.overId = some oid)
    (hres : newStatusMap oid = some newStatus)
    (hne : newStatus ≠ task.status) :
    ∃ f : Task → Task,
      (handleDragEndA (some uid) tasks ev).tasks = tasks.map f ∧
      (∀ cur p, (handleDragEndB (some uid) tasks ev).2 = some p →
        p.onSuccess cur = tasks.map f) ∧
      (∀ t : Task, t.id ≠ ev.activeId → f t = t) ∧
      (∀ t : Task, t.id = ev.activeId →
        (f t).status = newStatus ∧ (f t).id = t.id ∧ (f t).title = t.title ∧
        (f t).description = t.description ∧ (f t).priority = t.priority ∧
        (f t).points = t.points ∧ (f t).assignees = t.assignees ∧
        (f t).userId = t.userId ∧ (f t).projectId = t.projectId ∧
        (f t).sprintId = t.sprintId) := by
  have hB := resolveStatusB_of_map oid newStatus task.status hres
  refine ⟨fun t => if t.id = ev.activeId then { t with status := newStatus } else t,
    ?_, ?_, ?_, ?_⟩
  · simp [handleDragEndA, hover, hfind, hres, hne]
  · intro cur p hp
    simp [handleDragEndB, hover, hfind, hB, hne] at hp
    rw [← hp]
  · intro t ht
    simp [ht]
  · intro t ht
    simp [ht]

/-- Witness for C10: a todo task dragged onto the done column. -/
theorem C10_drag_frame_condition_witness :
    let t1 : Task := ⟨"t1", "a", "b", "medium", 1, "todo", ["u2"],
      some "u", some "p", some "s"⟩
    let ev : DragEndEvent := ⟨"t1", some "column-done"⟩
    ∃ f : Task → Task,
      (handleDragEndA (some "u") [t1] ev).tasks = [t1].map f ∧
      (∀ cur p, (handleDragEndB (some "u") [t1] ev).2 = some p →
        p.onSuccess cur = [t1].map f) ∧
      (∀ t : Task, t.id ≠ ev.activeId → f t = t) ∧
      (∀ t : Task, t.id = ev.activeId →
        (f t).status = "done" ∧ (f t).id = t.id ∧ (f t).title = t.title ∧
        (f t).description = t.description ∧ (f t).priority = t.priority ∧
        (f t).points = t.points ∧ (f t).assignees = t.assignees ∧
        (f t).userId = t.userId ∧ (f t).projectId = t.projectId ∧
        (f t).sprintId = t.sprintId) := by
  exact C10_drag_frame_condition "u" _ _ _ "column-done" "done"
    rfl rfl rfl (by decide)

/-- C1: the claim fails on the second board variant: after a drag of a
todo task onto the done lane, that variant issues the persistence request
while the store still shows todo (no optimistic application), and its
failure handler leaves the store as it was, only toasting the error, so
there is no state to revert and no optimistic state to keep. -/
theorem C1_lagging_variant_no_optimistic_update :
    let t1 : Task := ⟨"t1", "a", "", "medium", 1, "todo", [], none, none, none⟩
    let ev : DragEndEvent := ⟨"t1", some "column-done"⟩
    let r := handleDragEndB (some "u") [t1] ev
    r.1 = [t1] ∧
    ∃ p, r.2 = some p ∧ p.payload.status = "done" ∧
      applyCompletion p false r.1 =
        ([t1], Notice.error "Error" "Failed to update task status") ∧
      (applyCompletion p true r.1).1 =
        [{ t1 with status := "done" }] := by
  exact ⟨rfl, _, rfl, rfl, rfl, rfl⟩

/-- C2: the claim fails on the code: in the optimistic variant, when the
first of two rapid drags (todo to in-progress, then to done) fails after
the second has already resolved, the first failure handler rewrites the
task back to its pre-first-drag snapshot and the store ends at todo, not
done; in the non-optimistic variant two successful requests whose
completions resolve out of order end the store at in-progress, not
done. -/
theorem C2_stale_completion_overwrites :
    let t1 : Task := ⟨"t1", "a", "", "medium", 1, "todo", [], none, none, none⟩
    let r1 := handleDragEndA (some "u") [t1] ⟨"t1", some "column-in-progress"⟩
    let r2 := handleDragEndA (some "u") r1.tasks ⟨"t1", some "column-done"⟩
    let b1 := handleDragEndB (some "u") [t1] ⟨"t1", some "column-in-progress"⟩
    let b2 := handleDragEndB (some "u") b1.1 ⟨"t1", some "column-done"⟩
    (∃ p1 p2, r1.request = some p1 ∧ r2.request = some p2 ∧
      r2.tasks = [{ t1 with status := "done" }] ∧
      (applyCompletion p1 false (applyCompletion p2 true r2.tasks).1).1 =
        [t1]) ∧
    (∃ q1 q2, b1.2 = some q1 ∧ b2.2 = some q2 ∧
      (applyCompletion q2 true b2.1).1 = [{ t1 with status := "done" }] ∧
      (applyCompletion q1 true (applyCompletion q2 true b2.1).1).1 =
        [{ t1 with status := "in-progress" }]) := by
  exact ⟨⟨_, _, rfl, rfl, rfl, rfl⟩, ⟨_, _, rfl, rfl, rfl, rfl⟩⟩

/-- C8: the claim fails on the declared type: the status union declared
in src/types/task.ts has only the three values todo, in-progress and
done, while the board lane map resolves the in-review column to a fourth
value, in-review, which the rest of the code treats as a legal status. -/
theorem C8_status_type_mismatch :
    newStatusMap "column-in-review" = some "in-review" ∧
    "in-review" ∉ declaredStatusValues ∧
    "in-review" ∈ dialogStatusValues ∧
    declaredStatusValues = ["todo", "in-progress", "done"] ∧
    dialogStatusValues = ["todo", "in-progress", "in-review", "done"] := by
  refine ⟨rfl, by decide, by decide, rfl, rfl⟩

/-- C9: the claim fails on the third board variant: its DndContext is
mounted without any sensors, so no activation-distance constraint exists
there, while the other two variants configure distances 8 and 5. -/
theorem C9_missing_sensor_config :
    sensorActivationDistanceC = none ∧
    sensorActivationDistanceA = some 8 ∧
    sensorActivationDistanceB = some 5 := by
  exact ⟨rfl, rfl, rfl⟩

end AgileSprint
